import Mathlib

/-!
Verification of the session-manager core of an LSP-over-MCP bridge.

The embedded code is the class `LSPManager` of `src/lsp-manager.ts`.  Its
state is one JavaScript `Map` from server identifier to per-session record
(`servers`); each session record holds a `Map` from document URI to a
versioned text document (`documents`).  JavaScript `Map`s are embedded as
association lists with the same observable behaviour on reachable states
(keys are unique): `mapGet` is `Map.get`, `mapSet` is `Map.set` (replaces
in place, else appends), `mapDelete` is `Map.delete`.

Interaction with the subprocess (spawn, JSON-RPC requests and
notifications, dispose, kill) is recorded in an event trace, and the
outcome of each awaited JSON-RPC request is supplied by an explicit oracle
argument (`Except String _`: `ok` when the promise fulfils, `error e` when
it rejects with cause `e`).  Request and result payloads that no theorem
inspects are carried as plain `String`s: the source passes them through
unchanged (`result as T` casts, no inspection).

The source methods are `async`.  Each embedded operation is the
synchronous-segment semantics of one call: everything the method executes
up to its return/throw, with each `await`ed request outcome resolved by
the oracle.  The one place where the source starts an async call without
awaiting it (`this.stopServer(serverId)` in `startServer`'s catch block)
is modelled explicitly: the un-awaited callee runs synchronously up to its
first `await` (the shutdown request is issued), and its remainder (dispose,
kill, registry delete) is returned as a `DeferredTask` that runs only in a
later event-loop turn, after the caller has already propagated its error.
-/

set_option autoImplicit false
set_option linter.unusedVariables false

namespace LspMcp

universe u

/-- `Map.get` on an association list: value of the first entry with the key. -/
def mapGet {α : Type u} (m : List (String × α)) (k : String) : Option α :=
  match m with
  | [] => none
  | (k', v) :: rest => if k' = k then some v else mapGet rest k

/-- `Map.set` on an association list: replace the entry in place if the key is
present, otherwise append a fresh entry. -/
def mapSet {α : Type u} (m : List (String × α)) (k : String) (v : α) :
    List (String × α) :=
  match m with
  | [] => [(k, v)]
  | (k', v') :: rest =>
      if k' = k then (k, v) :: rest else (k', v') :: mapSet rest k v

/-- `Map.delete` on an association list: remove every entry with the key
(reachable states have unique keys, where this is `Map.delete`). -/
def mapDelete {α : Type u} (m : List (String × α)) (k : String) :
    List (String × α) :=
  match m with
  | [] => []
  | (k', v') :: rest =>
      if k' = k then mapDelete rest k else (k', v') :: mapDelete rest k

/-- A `{command, args}` entry of the default language-server table. -/
structure ServerCommand where
  command : String
  args : List String
deriving DecidableEq, Repr

/-- The tracked state of one open document: `TextDocument.create(uri,
languageId, version, content)` from `vscode-languageserver-textdocument`,
restricted to the four fields the manager reads. -/
structure TextDocument where
  uri : String
  languageId : String
  version : Nat
  content : String
deriving DecidableEq, Repr

/-- Interface `LSPServerInfo` of `lsp-manager.ts`.  The `process` and
`connection` handles are not data; their use is recorded in the event
trace instead. -/
structure LSPServerInfo where
  id : String
  language : String
  workspaceUri : String
  documents : List (String × TextDocument)
  initialized : Bool
deriving DecidableEq, Repr

/-- The `servers` map of `LSPManager`: session identifier to session record. -/
abbrev ServersMap := List (String × LSPServerInfo)

/-- Observable interactions of the manager with a subprocess.  `request` and
`notify` record a JSON-RPC method sent on a session's connection (`fileUri`
is the document the request targets, `none` for lifecycle methods);
`didOpen`/`didChange`/`didClose` record the document-sync notifications with
the payload fields the manager fills in; `dispose` and `kill` record
connection disposal and `process.kill()`. -/
inductive Event where
  | spawn (command : String) (args : List String)
  | request (serverId : String) (method : String) (fileUri : Option String)
  | notify (serverId : String) (method : String)
  | didOpen (serverId uri languageId : String) (version : Nat) (text : String)
  | didChange (serverId uri : String) (version : Nat) (text : String)
  | didClose (serverId uri : String)
  | dispose (serverId : String)
  | kill (serverId : String)
deriving DecidableEq, Repr

/-- Errors thrown by `LSPManager` methods, named after the spec's taxonomy
(§7).  The source throws `Error` objects whose messages identify the kind:
`Server S not found` is `SessionNotFound`, `No language server configured
for L` is `UnsupportedLanguage`, `Document U not open` is `DocumentNotOpen`;
`Underlying e` is a subprocess failure rethrown verbatim (`throw err`). -/
inductive Err where
  | SessionNotFound (serverId : String)
  | UnsupportedLanguage (language : String)
  | DocumentNotOpen (fileUri : String)
  | Underlying (msg : String)
deriving DecidableEq, Repr

/-- The remainder of an `async` call that was started but not awaited: it
runs in a later event-loop turn, after the starting method has returned or
thrown.  `finishStopServer id` is the tail of `stopServer(id)` past its
first `await` — `connection.dispose()`, `process.kill()`, and
`servers.delete(id)` — which runs once the awaited shutdown handshake
settles (its rejection is caught inside `stopServer`). -/
inductive DeferredTask where
  | finishStopServer (serverId : String)
deriving DecidableEq, Repr

/-- Default language-to-command table `languageServerCommands` of
`lsp-manager.ts` lines 42-49. -/
def languageServerCommands : List (String × ServerCommand) :=
  [("typescript", ⟨"typescript-language-server", ["--stdio"]⟩),
   ("python", ⟨"pylsp", []⟩),
   ("rust", ⟨"rust-analyzer", []⟩),
   ("go", ⟨"gopls", []⟩),
   ("java", ⟨"jdtls", []⟩),
   ("cpp", ⟨"clangd", []⟩)]

deriving instance DecidableEq for Except

/-- Return value of `startServer`: the result (session id or thrown error),
the `servers` map when the call returns/throws, the emitted events, and the
deferred tails of any async calls it started without awaiting. -/
structure StartOutcome where
  result : Except Err String
  servers : ServersMap
  events : List Event
  deferred : List DeferredTask
deriving DecidableEq, Repr

/-- Shared tail of `startServer` (lines 74-214) once a concrete command has
been resolved: spawn, register the session uninitialized, then attempt the
`initialize`/`initialized` handshake.  `init` is the oracle for the awaited
handshake.  On success the session's `initialized` flag is set (in-place
field assignment, hence `mapSet`) and the id is returned.  On failure the
catch block calls `this.stopServer(serverId)` WITHOUT `await`: the callee
runs up to its first `await` (lookup succeeds, the `shutdown` request is
issued) and suspends; `throw err` then propagates before the deferred
dispose/kill/delete can run, so the session is still registered in the
returned map and the teardown tail is returned as deferred. -/
def startSpawned (m : ServersMap) (language workspaceUri command : String)
    (args : List String) (serverId : String) (init : Except String Unit) :
    StartOutcome :=
  let info : LSPServerInfo :=
    { id := serverId, language := language, workspaceUri := workspaceUri,
      documents := [], initialized := false }
  let registered := mapSet m serverId info
  match init with
  | Except.ok _ =>
      { result := Except.ok serverId
        servers := mapSet registered serverId { info with initialized := true }
        events := [Event.spawn command args,
                   Event.request serverId "initialize" none,
                   Event.notify serverId "initialized"]
        deferred := [] }
  | Except.error e =>
      { result := Except.error (Err.Underlying e)
        servers := registered
        events := [Event.spawn command args,
                   Event.request serverId "initialize" none,
                   Event.request serverId "shutdown" none]
        deferred := [DeferredTask.finishStopServer serverId] }

/-- `LSPManager.startServer` (lines 51-215).  `serverId` stands for the
fresh `uuidv4()`; `init` is the oracle for the awaited initialization
handshake.  With no custom command, the language is resolved through the
default table; a missing entry throws `UnsupportedLanguage` before any
spawn or registry mutation. -/
def startServer (m : ServersMap) (language workspaceUri : String)
    (customCommand : Option String) (customArgs : Option (List String))
    (serverId : String) (init : Except String Unit) : StartOutcome :=
  match customCommand with
  | some c =>
      startSpawned m language workspaceUri c (customArgs.getD []) serverId init
  | none =>
      match mapGet languageServerCommands language with
      | none =>
          { result := Except.error (Err.UnsupportedLanguage language)
            servers := m, events := [], deferred := [] }
      | some cfg =>
          startSpawned m language workspaceUri cfg.command cfg.args serverId init

/-- Runs a deferred async tail in a later event-loop turn.  For
`finishStopServer`: the awaited shutdown handshake has settled (a rejection
was caught and only logged), so the remainder of `stopServer` runs —
dispose, kill, delete from the registry. -/
def runDeferred (m : ServersMap) (t : DeferredTask) : ServersMap × List Event :=
  match t with
  | DeferredTask.finishStopServer serverId =>
      (mapDelete m serverId, [Event.dispose serverId, Event.kill serverId])

/-- `LSPManager.stopServer` (lines 217-234).  `shutdown` is the oracle for
the awaited `shutdown` request; when it fulfils the `exit` notification
follows, when it rejects the catch block only logs.  Either way the
connection is disposed, the process killed and the session deleted.  An
unknown id throws `SessionNotFound` with nothing sent and the map
untouched. -/
def stopServer (m : ServersMap) (serverId : String)
    (shutdown : Except String Unit) :
    Except Err Unit × ServersMap × List Event :=
  match mapGet m serverId with
  | none => (Except.error (Err.SessionNotFound serverId), m, [])
  | some _ =>
      let handshake :=
        match shutdown with
        | Except.ok _ => [Event.request serverId "shutdown" none,
                          Event.notify serverId "exit"]
        | Except.error _ => [Event.request serverId "shutdown" none]
      (Except.ok (), mapDelete m serverId,
       handshake ++ [Event.dispose serverId, Event.kill serverId])

/-- Loop body of `LSPManager.stopAllServers` (lines 236-241): stop each id
of the snapshot in turn, with `.catch(...)` discarding any rejection of an
individual `stopServer` call.  `oracle` gives each session's shutdown
handshake outcome. -/
def stopAllLoop (m : ServersMap) (ids : List String)
    (oracle : String → Except String Unit) :
    Except Err Unit × ServersMap × List Event :=
  match ids with
  | [] => (Except.ok (), m, [])
  | id :: rest =>
      let r := stopServer m id (oracle id)
      let r' := stopAllLoop r.2.1 rest oracle
      (r'.1, r'.2.1, r.2.2 ++ r'.2.2)

/-- `LSPManager.stopAllServers` (lines 236-241): snapshot the registered
ids (`Array.from(this.servers.keys())`), stop each, individual failures
caught and logged; the `Promise.all` over caught promises always fulfils. -/
def stopAllServers (m : ServersMap) (oracle : String → Except String Unit) :
    Except Err Unit × ServersMap × List Event :=
  stopAllLoop m (m.map (fun p => p.1)) oracle

/-- One diagnostic as pushed by a subprocess; the manager never inspects
its fields, so it is carried as its raw payload. -/
abbrev Diagnostic := String

/-- `LSPManager.getDiagnostics` (lines 243-252): after the session lookup
it returns the empty array unconditionally — no diagnostics cache exists
and no notification handler is ever registered on the connection
(`connection.listen()` with no `onNotification`), so pushed
`textDocument/publishDiagnostics` payloads are discarded. -/
def getDiagnostics (m : ServersMap) (serverId fileUri : String) :
    Except Err (List Diagnostic) × ServersMap × List Event :=
  match mapGet m serverId with
  | none => (Except.error (Err.SessionNotFound serverId), m, [])
  | some _ => (Except.ok [], m, [])

/-- `LSPManager.getCompletions` (lines 254-277).  `req` is the oracle for
the awaited `textDocument/completion` request; a rejection is caught and
returned as `null` (`none`).  The documents map is never consulted. -/
def getCompletions (m : ServersMap) (serverId fileUri : String)
    (line character : Nat) (req : Except String String) :
    Except Err (Option String) × ServersMap × List Event :=
  match mapGet m serverId with
  | none => (Except.error (Err.SessionNotFound serverId), m, [])
  | some _ =>
      match req with
      | Except.ok v =>
          (Except.ok (some v), m,
           [Event.request serverId "textDocument/completion" (some fileUri)])
      | Except.error _ =>
          (Except.ok none, m,
           [Event.request serverId "textDocument/completion" (some fileUri)])

/-- `LSPManager.getHover` (lines 279-302); same shape as `getCompletions`
with method `textDocument/hover`. -/
def getHover (m : ServersMap) (serverId fileUri : String)
    (line character : Nat) (req : Except String String) :
    Except Err (Option String) × ServersMap × List Event :=
  match mapGet m serverId with
  | none => (Except.error (Err.SessionNotFound serverId), m, [])
  | some _ =>
      match req with
      | Except.ok v =>
          (Except.ok (some v), m,
           [Event.request serverId "textDocument/hover" (some fileUri)])
      | Except.error _ =>
          (Except.ok none, m,
           [Event.request serverId "textDocument/hover" (some fileUri)])

/-- `LSPManager.goToDefinition` (lines 304-327); method
`textDocument/definition`. -/
def goToDefinition (m : ServersMap) (serverId fileUri : String)
    (line character : Nat) (req : Except String String) :
    Except Err (Option String) × ServersMap × List Event :=
  match mapGet m serverId with
  | none => (Except.error (Err.SessionNotFound serverId), m, [])
  | some _ =>
      match req with
      | Except.ok v =>
          (Except.ok (some v), m,
           [Event.request serverId "textDocument/definition" (some fileUri)])
      | Except.error _ =>
          (Except.ok none, m,
           [Event.request serverId "textDocument/definition" (some fileUri)])

/-- `LSPManager.findReferences` (lines 329-354); method
`textDocument/references`, carrying the `includeDeclaration` flag in its
params (not inspected by the manager). -/
def findReferences (m : ServersMap) (serverId fileUri : String)
    (line character : Nat) (includeDeclaration : Bool)
    (req : Except String String) :
    Except Err (Option String) × ServersMap × List Event :=
  match mapGet m serverId with
  | none => (Except.error (Err.SessionNotFound serverId), m, [])
  | some _ =>
      match req with
      | Except.ok v =>
          (Except.ok (some v), m,
           [Event.request serverId "textDocument/references" (some fileUri)])
      | Except.error _ =>
          (Except.ok none, m,
           [Event.request serverId "textDocument/references" (some fileUri)])

/-- `LSPManager.renameSymbol` (lines 356-381); method
`textDocument/rename` with the new name in its params. -/
def renameSymbol (m : ServersMap) (serverId fileUri : String)
    (line character : Nat) (newName : String) (req : Except String String) :
    Except Err (Option String) × ServersMap × List Event :=
  match mapGet m serverId with
  | none => (Except.error (Err.SessionNotFound serverId), m, [])
  | some _ =>
      match req with
      | Except.ok v =>
          (Except.ok (some v), m,
           [Event.request serverId "textDocument/rename" (some fileUri)])
      | Except.error _ =>
          (Except.ok none, m,
           [Event.request serverId "textDocument/rename" (some fileUri)])

/-- `LSPManager.formatDocument` (lines 383-407); method
`textDocument/formatting`. -/
def formatDocument (m : ServersMap) (serverId fileUri : String)
    (req : Except String String) :
    Except Err (Option String) × ServersMap × List Event :=
  match mapGet m serverId with
  | none => (Except.error (Err.SessionNotFound serverId), m, [])
  | some _ =>
      match req with
      | Except.ok v =>
          (Except.ok (some v), m,
           [Event.request serverId "textDocument/formatting" (some fileUri)])
      | Except.error _ =>
          (Except.ok none, m,
           [Event.request serverId "textDocument/formatting" (some fileUri)])

/-- `LSPManager.getDocumentSymbols` (lines 409-429); method
`textDocument/documentSymbol`. -/
def getDocumentSymbols (m : ServersMap) (serverId fileUri : String)
    (req : Except String String) :
    Except Err (Option String) × ServersMap × List Event :=
  match mapGet m serverId with
  | none => (Except.error (Err.SessionNotFound serverId), m, [])
  | some _ =>
      match req with
      | Except.ok v =>
          (Except.ok (some v), m,
           [Event.request serverId "textDocument/documentSymbol" (some fileUri)])
      | Except.error _ =>
          (Except.ok none, m,
           [Event.request serverId "textDocument/documentSymbol" (some fileUri)])

/-- `LSPManager.openDocument` (lines 445-469): unknown session throws
`SessionNotFound`; otherwise a fresh `TextDocument` at version 1 is stored
under the URI (overwriting any existing state) and a
`textDocument/didOpen` notification with version 1 and the full content is
sent. -/
def openDocument (m : ServersMap) (serverId fileUri content languageId : String) :
    Except Err Unit × ServersMap × List Event :=
  match mapGet m serverId with
  | none => (Except.error (Err.SessionNotFound serverId), m, [])
  | some server =>
      let doc : TextDocument :=
        { uri := fileUri, languageId := languageId, version := 1,
          content := content }
      let server' := { server with documents := mapSet server.documents fileUri doc }
      (Except.ok (), mapSet m serverId server',
       [Event.didOpen serverId fileUri languageId 1 content])

/-- `LSPManager.updateDocument` (lines 471-504): unknown session throws
`SessionNotFound`; a URI with no tracked document throws `DocumentNotOpen`
before any mutation; otherwise the document is replaced at version
`old + 1` with the new content and a full-text `textDocument/didChange`
notification carrying that version is sent. -/
def updateDocument (m : ServersMap) (serverId fileUri content : String) :
    Except Err Unit × ServersMap × List Event :=
  match mapGet m serverId with
  | none => (Except.error (Err.SessionNotFound serverId), m, [])
  | some server =>
      match mapGet server.documents fileUri with
      | none => (Except.error (Err.DocumentNotOpen fileUri), m, [])
      | some doc =>
          let newVersion := doc.version + 1
          let newDoc : TextDocument :=
            { uri := fileUri, languageId := doc.languageId,
              version := newVersion, content := content }
          let server' :=
            { server with documents := mapSet server.documents fileUri newDoc }
          (Except.ok (), mapSet m serverId server',
           [Event.didChange serverId fileUri newVersion content])

/-- `LSPManager.closeDocument` (lines 506-524): unknown session throws
`SessionNotFound`; a URI with no tracked document throws `DocumentNotOpen`
before any mutation; otherwise the document is removed and a
`textDocument/didClose` notification is sent. -/
def closeDocument (m : ServersMap) (serverId fileUri : String) :
    Except Err Unit × ServersMap × List Event :=
  match mapGet m serverId with
  | none => (Except.error (Err.SessionNotFound serverId), m, [])
  | some server =>
      match mapGet server.documents fileUri with
      | none => (Except.error (Err.DocumentNotOpen fileUri), m, [])
      | some _ =>
          let server' :=
            { server with documents := mapDelete server.documents fileUri }
          (Except.ok (), mapSet m serverId server',
           [Event.didClose serverId fileUri])

/-- Applies `updateDocument` once per element of `contents`, collecting
each call's result and concatenating the emitted events, as a caller
issuing the updates in order would. -/
def runUpdates (m : ServersMap) (serverId fileUri : String)
    (contents : List String) :
    List (Except Err Unit) × ServersMap × List Event :=
  match contents with
  | [] => ([], m, [])
  | c :: rest =>
      let r := updateDocument m serverId fileUri c
      let r' := runUpdates r.2.1 serverId fileUri rest
      (r.1 :: r'.1, r'.2.1, r.2.2 ++ r'.2.2)

/-- The `textDocument/didChange` trace a compliant tracker produces for a
run of full-text updates starting from version `v`: the k-th update (from
1) carries version `v + k` and the whole k-th content. -/
def changeEvents (serverId uri : String) (v : Nat) :
    List String → List Event
  | [] => []
  | c :: rest =>
      Event.didChange serverId uri (v + 1) c :: changeEvents serverId uri (v + 1) rest

/-- The content tracked after a run of full-text updates: the text of the
last update, or the prior content `c0` when no update occurred. -/
def lastContent (c0 : String) : List String → String
  | [] => c0
  | c :: rest => lastContent c rest

/-- The document state the manager tracks for `fileUri` in session
`serverId`, when both exist. -/
def docOf (m : ServersMap) (serverId fileUri : String) : Option TextDocument :=
  (mapGet m serverId).bind (fun sv => mapGet sv.documents fileUri)

/-- A live session fixture: initialized, with one document open at
version 3. -/
def sampleServer : LSPServerInfo :=
  { id := "s1", language := "typescript", workspaceUri := "file:///w",
    documents := [("file:///w/a.ts",
      { uri := "file:///w/a.ts", languageId := "typescript",
        version := 3, content := "let x = 1;" })],
    initialized := true }

/-- A second live session fixture with no open documents. -/
def otherServer : LSPServerInfo :=
  { id := "s2", language := "python", workspaceUri := "file:///w2",
    documents := [], initialized := true }

/-- A registry with the single live session `s1`. -/
def sampleMap : ServersMap := [("s1", sampleServer)]

/-- A registry with the two live sessions `s1` and `s2`. -/
def sampleMap2 : ServersMap := [("s1", sampleServer), ("s2", otherServer)]

/-- A shutdown oracle under which `s1`'s shutdown handshake rejects and
every other session's fulfils. -/
def sampleOracle : String → Except String Unit :=
  fun id => if id = "s1" then Except.error "shutdown rejected" else Except.ok ()

/-! Association-list map lemmas. -/

theorem mapGet_mapSet_self {α : Type u} (m : List (String × α)) (k : String)
    (v : α) : mapGet (mapSet m k v) k = some v := by
  induction m with
  | nil => simp [mapGet, mapSet]
  | cons p rest ih =>
      obtain ⟨k', v'⟩ := p
      by_cases h : k' = k
      · simp [mapGet, mapSet, h]
      · simp [mapGet, mapSet, h, ih]

theorem mapGet_mapSet_ne {α : Type u} (m : List (String × α)) (k k' : String)
    (v : α) (h : k' ≠ k) : mapGet (mapSet m k v) k' = mapGet m k' := by
  have hk : ¬ k = k' := fun h' => h h'.symm
  induction m with
  | nil => simp [mapGet, mapSet, hk]
  | cons p rest ih =>
      obtain ⟨k₀, v₀⟩ := p
      by_cases h₀ : k₀ = k
      · subst h₀
        simp [mapGet, mapSet, hk]
      · simp [mapGet, mapSet, h₀, ih]

theorem mapGet_mapDelete {α : Type u} (m : List (String × α)) (k k' : String) :
    mapGet (mapDelete m k) k' = if k' = k then none else mapGet m k' := by
  induction m with
  | nil => simp [mapGet, mapDelete]
  | cons p rest ih =>
      obtain ⟨k₀, v₀⟩ := p
      by_cases h₀ : k₀ = k
      · subst h₀
        by_cases h₁ : k' = k₀
        · subst h₁
          simp [mapGet, mapDelete, ih]
        · simp [mapGet, mapDelete, ih, h₁,
            show ¬ k₀ = k' from fun h => h₁ h.symm]
      · by_cases h₁ : k₀ = k'
        · subst h₁
          simp [mapGet, mapDelete, h₀]
        · simp [mapGet, mapDelete, h₀, h₁, ih]

/-! Lifecycle helper lemmas. -/

theorem stopServer_self_absent (m : ServersMap) (serverId : String)
    (sd : Except String Unit) :
    mapGet (stopServer m serverId sd).2.1 serverId = none := by
  unfold stopServer
  cases h : mapGet m serverId with
  | none => simpa using h
  | some sv => simp [mapGet_mapDelete]

theorem stopServer_preserves_absent (m : ServersMap) (serverId j : String)
    (sd : Except String Unit) (h : mapGet m j = none) :
    mapGet (stopServer m serverId sd).2.1 j = none := by
  unfold stopServer
  cases hs : mapGet m serverId with
  | none => simpa using h
  | some sv => simp [mapGet_mapDelete, h]

theorem stopServer_kill_mem (m : ServersMap) (serverId : String)
    (sd : Except String Unit) (sv : LSPServerInfo)
    (h : mapGet m serverId = some sv) :
    Event.kill serverId ∈ (stopServer m serverId sd).2.2 := by
  unfold stopServer
  rw [h]
  cases sd <;> simp

theorem stopServer_get_ne (m : ServersMap) (serverId j : String)
    (sd : Except String Unit) (h : j ≠ serverId) :
    mapGet (stopServer m serverId sd).2.1 j = mapGet m j := by
  unfold stopServer
  cases hs : mapGet m serverId with
  | none => simp
  | some sv => simp [mapGet_mapDelete, h]

theorem stopAllLoop_result (ids : List String) (m : ServersMap)
    (oracle : String → Except String Unit) :
    (stopAllLoop m ids oracle).1 = Except.ok () := by
  induction ids generalizing m with
  | nil => rfl
  | cons id rest ih => simp [stopAllLoop, ih]

theorem stopAllLoop_preserves_absent (ids : List String) (m : ServersMap)
    (oracle : String → Except String Unit) (j : String)
    (h : mapGet m j = none) :
    mapGet (stopAllLoop m ids oracle).2.1 j = none := by
  induction ids generalizing m with
  | nil => simpa [stopAllLoop] using h
  | cons id rest ih =>
      simp only [stopAllLoop]
      exact ih _ (stopServer_preserves_absent m id j (oracle id) h)

theorem stopAllLoop_absent (ids : List String) (m : ServersMap)
    (oracle : String → Except String Unit) (j : String) (hj : j ∈ ids) :
    mapGet (stopAllLoop m ids oracle).2.1 j = none := by
  induction ids generalizing m with
  | nil => cases hj
  | cons id rest ih =>
      simp only [stopAllLoop]
      by_cases he : j = id
      · subst he
        exact stopAllLoop_preserves_absent rest _ oracle j
          (stopServer_self_absent m j (oracle j))
      · rcases List.mem_cons.mp hj with h | h
        · exact absurd h he
        · exact ih _ h

theorem stopAllLoop_kill_mem (ids : List String) (m : ServersMap)
    (oracle : String → Except String Unit) (j : String) (hj : j ∈ ids)
    (hp : mapGet m j ≠ none) :
    Event.kill j ∈ (stopAllLoop m ids oracle).2.2 := by
  induction ids generalizing m with
  | nil => cases hj
  | cons id rest ih =>
      simp only [stopAllLoop, List.mem_append]
      by_cases he : j = id
      · subst he
        obtain ⟨sv, hs⟩ := Option.ne_none_iff_exists'.mp hp
        exact Or.inl (stopServer_kill_mem m j (oracle j) sv hs)
      · rcases List.mem_cons.mp hj with h | h
        · exact absurd h he
        · refine Or.inr (ih _ h ?_)
          rw [stopServer_get_ne m id j (oracle id) he]
          exact hp

theorem mapGet_ne_none_of_mem_keys (m : ServersMap) (id : String)
    (h : id ∈ m.map (fun p => p.1)) : mapGet m id ≠ none := by
  induction m with
  | nil => simp at h
  | cons p rest ih =>
      obtain ⟨k, v⟩ := p
      by_cases he : k = id
      · simp [mapGet, he]
      · have h' : id ∈ rest.map (fun p => p.1) := by
          rw [List.map_cons] at h
          rcases List.mem_cons.mp h with hk | hk
          · exact absurd hk.symm he
          · exact hk
        simp only [mapGet, he, if_false]
        exact ih h'

/-! Document-operation helper lemmas. -/

theorem openDocument_step (m : ServersMap) (serverId fileUri c languageId : String)
    (sv : LSPServerInfo) (hs : mapGet m serverId = some sv) :
    openDocument m serverId fileUri c languageId
      = (Except.ok (),
         mapSet m serverId
           { sv with documents := mapSet sv.documents fileUri ⟨fileUri, languageId, 1, c⟩ },
         [Event.didOpen serverId fileUri languageId 1 c]) := by
  simp [openDocument, hs]

theorem updateDocument_step (m : ServersMap) (serverId fileUri c : String)
    (sv : LSPServerInfo) (d : TextDocument)
    (hs : mapGet m serverId = some sv)
    (hd : mapGet sv.documents fileUri = some d) :
    updateDocument m serverId fileUri c
      = (Except.ok (),
         mapSet m serverId
           { sv with documents := mapSet sv.documents fileUri ⟨fileUri, d.languageId, d.version + 1, c⟩ },
         [Event.didChange serverId fileUri (d.version + 1) c]) := by
  simp [updateDocument, hs, hd]

theorem runUpdates_spec (contents : List String) (m : ServersMap)
    (serverId fileUri : String) (sv : LSPServerInfo) (d : TextDocument)
    (hs : mapGet m serverId = some sv)
    (hd : mapGet sv.documents fileUri = some d) (hu : d.uri = fileUri) :
    (runUpdates m serverId fileUri contents).1
        = contents.map (fun _ => Except.ok ())
    ∧ (runUpdates m serverId fileUri contents).2.2
        = changeEvents serverId fileUri d.version contents
    ∧ docOf (runUpdates m serverId fileUri contents).2.1 serverId fileUri
        = some { uri := fileUri, languageId := d.languageId,
                 version := d.version + contents.length,
                 content := lastContent d.content contents } := by
  induction contents generalizing m sv d with
  | nil =>
      refine ⟨rfl, rfl, ?_⟩
      cases d
      simp_all [runUpdates, docOf, lastContent]
  | cons c rest ih =>
      have hstep := updateDocument_step m serverId fileUri c sv d hs hd
      have hs' := mapGet_mapSet_self m serverId
        { sv with documents := mapSet sv.documents fileUri ⟨fileUri, d.languageId, d.version + 1, c⟩ }
      have hd' := mapGet_mapSet_self sv.documents fileUri
        ⟨fileUri, d.languageId, d.version + 1, c⟩
      obtain ⟨ihr, ihe, ihd⟩ := ih _ _ _ hs' hd' rfl
      refine ⟨?_, ?_, ?_⟩
      · simp [runUpdates, hstep, ihr]
      · simp [runUpdates, hstep, ihe, changeEvents]
      · simp only [runUpdates, hstep]
        rw [ihd]
        simp only [lastContent, List.length_cons, Option.some.injEq,
          TextDocument.mk.injEq, true_and, and_true]
        omega

/-! Claim theorems. -/

/-- C1 (code bug): for every live session and every document URI,
`getDiagnostics` returns the empty array unconditionally.  The spec
requires a standing per-document diagnostics cache populated from the
subprocess's push notifications, served on request; the source instead has
no cache, registers no notification handler on the connection, and returns
`[]` for every live session (lines 249-251, with the comment that a real
implementation would track pushed diagnostics). -/
theorem getDiagnostics_always_empty (m : ServersMap)
    (serverId fileUri : String) (sv : LSPServerInfo)
    (hs : mapGet m serverId = some sv) :
    getDiagnostics m serverId fileUri = (Except.ok [], m, []) := by
  simp [getDiagnostics, hs]

/-- C2 counterexample: start a server whose initialization handshake is
rejected by the subprocess.  The claim says that at the moment
`startServer` propagates the failure the session is no longer present in
the registry; in fact the lookup still succeeds, because the catch block's
`this.stopServer(serverId)` is not awaited and its registry deletion runs
only in a later event-loop turn. -/
theorem startServer_initFail_still_registered :
    (startServer [] "typescript" "file:///w" none none "s9"
        (Except.error "init rejected")).result
      = Except.error (Err.Underlying "init rejected")
    ∧ mapGet (startServer [] "typescript" "file:///w" none none "s9"
        (Except.error "init rejected")).servers "s9" ≠ none := by
  refine ⟨rfl, ?_⟩
  decide

/-- C2 (amended): if the initialization handshake fails during
`startServer`, the underlying cause is propagated as the error and
teardown is initiated but not awaited: at the moment the failure
propagates the session is still present in the registry (registered, not
initialized), and only the deferred remainder of `stopServer` removes it,
after which a lookup of the identifier fails. -/
theorem startServer_initFail_deferred_teardown (m : ServersMap)
    (language workspaceUri serverId e : String) (cfg : ServerCommand)
    (hl : mapGet languageServerCommands language = some cfg) :
    (startServer m language workspaceUri none none serverId
        (Except.error e)).result = Except.error (Err.Underlying e)
    ∧ mapGet (startServer m language workspaceUri none none serverId
        (Except.error e)).servers serverId
      = some { id := serverId, language := language,
               workspaceUri := workspaceUri, documents := [],
               initialized := false }
    ∧ (startServer m language workspaceUri none none serverId
        (Except.error e)).deferred
      = [DeferredTask.finishStopServer serverId]
    ∧ mapGet (runDeferred (startServer m language workspaceUri none none
        serverId (Except.error e)).servers
        (DeferredTask.finishStopServer serverId)).1 serverId = none := by
  refine ⟨?_, ?_, ?_, ?_⟩ <;>
    simp [startServer, hl, startSpawned, runDeferred,
          mapGet_mapSet_self, mapGet_mapDelete]

/-- C3: starting a server for a language with no entry in the default
table and no custom command fails with `UnsupportedLanguage`, spawns
nothing (no events at all), and leaves the registry unchanged. -/
theorem startServer_unsupported_language (m : ServersMap)
    (language workspaceUri serverId : String)
    (customArgs : Option (List String)) (init : Except String Unit)
    (h : mapGet languageServerCommands language = none) :
    startServer m language workspaceUri none customArgs serverId init
      = { result := Except.error (Err.UnsupportedLanguage language),
          servers := m, events := [], deferred := [] } := by
  simp [startServer, h]

/-- C4: on a live session, `openDocument` creates the document state at
version 1 and emits `didOpen` carrying version 1 and the full content;
a run of `n` subsequent updates on that URI is accepted in full, each
update incrementing the version by exactly 1 — the emitted trace is
`changeEvents _ _ 1 contents`, whose k-th notification carries version
`k + 1` and the whole k-th content — and afterwards the tracked document
sits at version `n + 1` holding the last content. -/
theorem open_update_version_discipline (m : ServersMap)
    (serverId fileUri c0 languageId : String) (contents : List String)
    (sv : LSPServerInfo) (hs : mapGet m serverId = some sv) :
    (openDocument m serverId fileUri c0 languageId).1 = Except.ok ()
    ∧ (openDocument m serverId fileUri c0 languageId).2.2
        = [Event.didOpen serverId fileUri languageId 1 c0]
    ∧ docOf (openDocument m serverId fileUri c0 languageId).2.1
        serverId fileUri
        = some { uri := fileUri, languageId := languageId,
                 version := 1, content := c0 }
    ∧ (runUpdates (openDocument m serverId fileUri c0 languageId).2.1
        serverId fileUri contents).1
        = contents.map (fun _ => Except.ok ())
    ∧ (runUpdates (openDocument m serverId fileUri c0 languageId).2.1
        serverId fileUri contents).2.2
        = changeEvents serverId fileUri 1 contents
    ∧ docOf (runUpdates (openDocument m serverId fileUri c0 languageId).2.1
        serverId fileUri contents).2.1 serverId fileUri
        = some { uri := fileUri, languageId := languageId,
                 version := contents.length + 1,
                 content := lastContent c0 contents } := by
  have hopen := openDocument_step m serverId fileUri c0 languageId sv hs
  have hs' := mapGet_mapSet_self m serverId
    { sv with documents := mapSet sv.documents fileUri ⟨fileUri, languageId, 1, c0⟩ }
  have hd' := mapGet_mapSet_self sv.documents fileUri
    ⟨fileUri, languageId, 1, c0⟩
  obtain ⟨hru, hre, hrd⟩ := runUpdates_spec contents _ serverId fileUri _ _ hs' hd' rfl
  refine ⟨?_, ?_, ?_, ?_, ?_, ?_⟩
  · simp [hopen]
  · simp [hopen]
  · simp [hopen, docOf, hs', hd']
  · simp [hopen, hru]
  · simp [hopen, hre]
  · simp only [hopen]
    rw [hrd]
    simp [Nat.add_comm]

/-- C5: on a live session, `updateDocument` and `closeDocument` on a URI
with no tracked document state fail with `DocumentNotOpen` and leave the
whole manager state (in particular the session's document map) unchanged,
emitting nothing. -/
theorem update_close_document_not_open (m : ServersMap)
    (serverId fileUri c : String) (sv : LSPServerInfo)
    (hs : mapGet m serverId = some sv)
    (hd : mapGet sv.documents fileUri = none) :
    updateDocument m serverId fileUri c
        = (Except.error (Err.DocumentNotOpen fileUri), m, [])
    ∧ closeDocument m serverId fileUri
        = (Except.error (Err.DocumentNotOpen fileUri), m, []) := by
  constructor <;> simp [updateDocument, closeDocument, hs, hd]

/-- C6: `stopServer` on an unknown identifier fails with `SessionNotFound`
and leaves the registry unchanged with nothing sent; on a registered
session it succeeds for every shutdown-handshake outcome, kills the
process, and removes the session, so a subsequent lookup finds nothing. -/
theorem stopServer_contract (m : ServersMap) (serverId : String)
    (sd : Except String Unit) :
    (mapGet m serverId = none →
        stopServer m serverId sd
          = (Except.error (Err.SessionNotFound serverId), m, []))
    ∧ (∀ sv : LSPServerInfo, mapGet m serverId = some sv →
        (stopServer m serverId sd).1 = Except.ok ()
        ∧ Event.kill serverId ∈ (stopServer m serverId sd).2.2
        ∧ mapGet (stopServer m serverId sd).2.1 serverId = none) := by
  constructor
  · intro h
    simp [stopServer, h]
  · intro sv h
    exact ⟨by simp [stopServer, h], stopServer_kill_mem m serverId sd sv h,
           stopServer_self_absent m serverId sd⟩

/-- C7: `stopAllServers` never fails, whatever the individual shutdown
outcomes; every session registered at the time of the call has its process
killed, and none of those identifiers remains in the registry when the
sweep completes. -/
theorem stopAllServers_sweep (m : ServersMap)
    (oracle : String → Except String Unit) :
    (stopAllServers m oracle).1 = Except.ok ()
    ∧ (∀ id, id ∈ m.map (fun p => p.1) →
        mapGet (stopAllServers m oracle).2.1 id = none
        ∧ Event.kill id ∈ (stopAllServers m oracle).2.2) := by
  unfold stopAllServers
  refine ⟨stopAllLoop_result (m.map (fun p => p.1)) m oracle, ?_⟩
  intro id hid
  exact ⟨stopAllLoop_absent (m.map (fun p => p.1)) m oracle id hid,
         stopAllLoop_kill_mem (m.map (fun p => p.1)) m oracle id hid
           (mapGet_ne_none_of_mem_keys m id hid)⟩

/-- C8: on a live session, every one of the seven intelligence operations
whose underlying protocol request rejects returns `null` (`none`) as a
successful result, leaves the whole state unchanged (the session stays
registered with its document map intact), and emits only the request. -/
theorem intelligence_failure_returns_null (m : ServersMap)
    (serverId fileUri e newName : String) (line character : Nat)
    (includeDeclaration : Bool) (sv : LSPServerInfo)
    (hs : mapGet m serverId = some sv) :
    getCompletions m serverId fileUri line character (Except.error e)
      = (Except.ok none, m,
         [Event.request serverId "textDocument/completion" (some fileUri)])
    ∧ getHover m serverId fileUri line character (Except.error e)
      = (Except.ok none, m,
         [Event.request serverId "textDocument/hover" (some fileUri)])
    ∧ goToDefinition m serverId fileUri line character (Except.error e)
      = (Except.ok none, m,
         [Event.request serverId "textDocument/definition" (some fileUri)])
    ∧ findReferences m serverId fileUri line character includeDeclaration
        (Except.error e)
      = (Except.ok none, m,
         [Event.request serverId "textDocument/references" (some fileUri)])
    ∧ renameSymbol m serverId fileUri line character newName (Except.error e)
      = (Except.ok none, m,
         [Event.request serverId "textDocument/rename" (some fileUri)])
    ∧ formatDocument m serverId fileUri (Except.error e)
      = (Except.ok none, m,
         [Event.request serverId "textDocument/formatting" (some fileUri)])
    ∧ getDocumentSymbols m serverId fileUri (Except.error e)
      = (Except.ok none, m,
         [Event.request serverId "textDocument/documentSymbol" (some fileUri)]) := by
  refine ⟨?_, ?_, ?_, ?_, ?_, ?_, ?_⟩ <;>
    simp [getCompletions, getHover, goToDefinition, findReferences,
          renameSymbol, formatDocument, getDocumentSymbols, hs]

/-- C9: `openDocument` on a URI that is already open in the session
replaces the tracked state with a fresh one at version 1 — whatever
version, content and language id the previous state had — and the
`didOpen` sent to the subprocess carries version 1, so the version the
subprocess observes can decrease across a re-open. -/
theorem openDocument_reopen_resets (m : ServersMap)
    (serverId fileUri c1 l1 : String) (sv : LSPServerInfo) (d : TextDocument)
    (hs : mapGet m serverId = some sv)
    (hd : mapGet sv.documents fileUri = some d) :
    (openDocument m serverId fileUri c1 l1).1 = Except.ok ()
    ∧ docOf (openDocument m serverId fileUri c1 l1).2.1 serverId fileUri
        = some { uri := fileUri, languageId := l1, version := 1, content := c1 }
    ∧ (openDocument m serverId fileUri c1 l1).2.2
        = [Event.didOpen serverId fileUri l1 1 c1] := by
  have hopen := openDocument_step m serverId fileUri c1 l1 sv hs
  refine ⟨?_, ?_, ?_⟩ <;>
    simp [hopen, docOf, mapGet_mapSet_self]

/-- C10: on a live session, none of the seven intelligence operations
consults the session's document map: for a URI with no tracked document
state (never opened or already closed) and any request outcome, the
request is still sent to the subprocess and the operation never fails with
`DocumentNotOpen`. -/
theorem intelligence_no_open_check (m : ServersMap)
    (serverId fileUri newName : String) (line character : Nat)
    (includeDeclaration : Bool) (sv : LSPServerInfo)
    (r1 r2 r3 r4 r5 r6 r7 : Except String String)
    (hs : mapGet m serverId = some sv)
    (hd : mapGet sv.documents fileUri = none) :
    ((getCompletions m serverId fileUri line character r1).2.2
        = [Event.request serverId "textDocument/completion" (some fileUri)]
      ∧ (getCompletions m serverId fileUri line character r1).1
        ≠ Except.error (Err.DocumentNotOpen fileUri))
    ∧ ((getHover m serverId fileUri line character r2).2.2
        = [Event.request serverId "textDocument/hover" (some fileUri)]
      ∧ (getHover m serverId fileUri line character r2).1
        ≠ Except.error (Err.DocumentNotOpen fileUri))
    ∧ ((goToDefinition m serverId fileUri line character r3).2.2
        = [Event.request serverId "textDocument/definition" (some fileUri)]
      ∧ (goToDefinition m serverId fileUri line character r3).1
        ≠ Except.error (Err.DocumentNotOpen fileUri))
    ∧ ((findReferences m serverId fileUri line character includeDeclaration r4).2.2
        = [Event.request serverId "textDocument/references" (some fileUri)]
      ∧ (findReferences m serverId fileUri line character includeDeclaration r4).1
        ≠ Except.error (Err.DocumentNotOpen fileUri))
    ∧ ((renameSymbol m serverId fileUri line character newName r5).2.2
        = [Event.request serverId "textDocument/rename" (some fileUri)]
      ∧ (renameSymbol m serverId fileUri line character newName r5).1
        ≠ Except.error (Err.DocumentNotOpen fileUri))
    ∧ ((formatDocument m serverId fileUri r6).2.2
        = [Event.request serverId "textDocument/formatting" (some fileUri)]
      ∧ (formatDocument m serverId fileUri r6).1
        ≠ Except.error (Err.DocumentNotOpen fileUri))
    ∧ ((getDocumentSymbols m serverId fileUri r7).2.2
        = [Event.request serverId "textDocument/documentSymbol" (some fileUri)]
      ∧ (getDocumentSymbols m serverId fileUri r7).1
        ≠ Except.error (Err.DocumentNotOpen fileUri)) := by
  refine ⟨?_, ?_, ?_, ?_, ?_, ?_, ?_⟩
  · cases r1 <;> simp [getCompletions, hs]
  · cases r2 <;> simp [getHover, hs]
  · cases r3 <;> simp [goToDefinition, hs]
  · cases r4 <;> simp [findReferences, hs]
  · cases r5 <;> simp [renameSymbol, hs]
  · cases r6 <;> simp [formatDocument, hs]
  · cases r7 <;> simp [getDocumentSymbols, hs]

/-! Witnesses: each theorem above with a hypothesis, applied at a concrete
input with its hypotheses discharged there. -/

theorem getDiagnostics_always_empty_witness :
    getDiagnostics sampleMap "s1" "file:///w/a.ts"
      = (Except.ok [], sampleMap, []) :=
  getDiagnostics_always_empty sampleMap "s1" "file:///w/a.ts" sampleServer rfl

theorem startServer_initFail_deferred_teardown_witness :
    (startServer sampleMap "typescript" "file:///w2" none none "s3"
        (Except.error "init rejected")).result
      = Except.error (Err.Underlying "init rejected")
    ∧ mapGet (startServer sampleMap "typescript" "file:///w2" none none "s3"
        (Except.error "init rejected")).servers "s3"
      = some { id := "s3", language := "typescript",
               workspaceUri := "file:///w2", documents := [],
               initialized := false }
    ∧ (startServer sampleMap "typescript" "file:///w2" none none "s3"
        (Except.error "init rejected")).deferred
      = [DeferredTask.finishStopServer "s3"]
    ∧ mapGet (runDeferred (startServer sampleMap "typescript" "file:///w2"
        none none "s3" (Except.error "init rejected")).servers
        (DeferredTask.finishStopServer "s3")).1 "s3" = none :=
  startServer_initFail_deferred_teardown sampleMap "typescript" "file:///w2"
    "s3" "init rejected" ⟨"typescript-language-server", ["--stdio"]⟩ rfl

theorem startServer_unsupported_language_witness :
    startServer sampleMap "cobol" "file:///w" none none "s4" (Except.ok ())
      = { result := Except.error (Err.UnsupportedLanguage "cobol"),
          servers := sampleMap, events := [], deferred := [] } :=
  startServer_unsupported_language sampleMap "cobol" "file:///w" "s4" none
    (Except.ok ()) rfl

theorem open_update_version_discipline_witness :
    (openDocument sampleMap "s1" "file:///w/n.ts" "a" "typescript").1
      = Except.ok ()
    ∧ (openDocument sampleMap "s1" "file:///w/n.ts" "a" "typescript").2.2
      = [Event.didOpen "s1" "file:///w/n.ts" "typescript" 1 "a"]
    ∧ docOf (openDocument sampleMap "s1" "file:///w/n.ts" "a" "typescript").2.1
        "s1" "file:///w/n.ts"
      = some { uri := "file:///w/n.ts", languageId := "typescript",
               version := 1, content := "a" }
    ∧ (runUpdates (openDocument sampleMap "s1" "file:///w/n.ts" "a"
        "typescript").2.1 "s1" "file:///w/n.ts" ["b", "c"]).1
      = [Except.ok (), Except.ok ()]
    ∧ (runUpdates (openDocument sampleMap "s1" "file:///w/n.ts" "a"
        "typescript").2.1 "s1" "file:///w/n.ts" ["b", "c"]).2.2
      = [Event.didChange "s1" "file:///w/n.ts" 2 "b",
         Event.didChange "s1" "file:///w/n.ts" 3 "c"]
    ∧ docOf (runUpdates (openDocument sampleMap "s1" "file:///w/n.ts" "a"
        "typescript").2.1 "s1" "file:///w/n.ts" ["b", "c"]).2.1
        "s1" "file:///w/n.ts"
      = some { uri := "file:///w/n.ts", languageId := "typescript",
               version := 3, content := "c" } :=
  open_update_version_discipline sampleMap "s1" "file:///w/n.ts" "a"
    "typescript" ["b", "c"] sampleServer rfl

theorem update_close_document_not_open_witness :
    updateDocument sampleMap "s1" "file:///w/other.ts" "x"
      = (Except.error (Err.DocumentNotOpen "file:///w/other.ts"), sampleMap, [])
    ∧ closeDocument sampleMap "s1" "file:///w/other.ts"
      = (Except.error (Err.DocumentNotOpen "file:///w/other.ts"), sampleMap, []) :=
  update_close_document_not_open sampleMap "s1" "file:///w/other.ts" "x"
    sampleServer rfl rfl

theorem stopServer_contract_witness :
    stopServer sampleMap "zz" (Except.ok ())
      = (Except.error (Err.SessionNotFound "zz"), sampleMap, [])
    ∧ ((stopServer sampleMap "s1" (Except.error "halt rejected")).1
        = Except.ok ()
      ∧ Event.kill "s1"
          ∈ (stopServer sampleMap "s1" (Except.error "halt rejected")).2.2
      ∧ mapGet (stopServer sampleMap "s1"
          (Except.error "halt rejected")).2.1 "s1" = none) :=
  ⟨(stopServer_contract sampleMap "zz" (Except.ok ())).1 rfl,
   (stopServer_contract sampleMap "s1" (Except.error "halt rejected")).2
     sampleServer rfl⟩

theorem stopAllServers_sweep_witness :
    (stopAllServers sampleMap2 sampleOracle).1 = Except.ok ()
    ∧ (mapGet (stopAllServers sampleMap2 sampleOracle).2.1 "s1" = none
       ∧ Event.kill "s1" ∈ (stopAllServers sampleMap2 sampleOracle).2.2)
    ∧ (mapGet (stopAllServers sampleMap2 sampleOracle).2.1 "s2" = none
       ∧ Event.kill "s2" ∈ (stopAllServers sampleMap2 sampleOracle).2.2) :=
  ⟨(stopAllServers_sweep sampleMap2 sampleOracle).1,
   (stopAllServers_sweep sampleMap2 sampleOracle).2 "s1" (by decide),
   (stopAllServers_sweep sampleMap2 sampleOracle).2 "s2" (by decide)⟩

theorem intelligence_failure_returns_null_witness :
    getCompletions sampleMap "s1" "file:///w/a.ts" 0 4 (Except.error "boom")
      = (Except.ok none, sampleMap,
         [Event.request "s1" "textDocument/completion" (some "file:///w/a.ts")])
    ∧ getHover sampleMap "s1" "file:///w/a.ts" 0 4 (Except.error "boom")
      = (Except.ok none, sampleMap,
         [Event.request "s1" "textDocument/hover" (some "file:///w/a.ts")])
    ∧ goToDefinition sampleMap "s1" "file:///w/a.ts" 0 4 (Except.error "boom")
      = (Except.ok none, sampleMap,
         [Event.request "s1" "textDocument/definition" (some "file:///w/a.ts")])
    ∧ findReferences sampleMap "s1" "file:///w/a.ts" 0 4 true
        (Except.error "boom")
      = (Except.ok none, sampleMap,
         [Event.request "s1" "textDocument/references" (some "file:///w/a.ts")])
    ∧ renameSymbol sampleMap "s1" "file:///w/a.ts" 0 4 "y"
        (Except.error "boom")
      = (Except.ok none, sampleMap,
         [Event.request "s1" "textDocument/rename" (some "file:///w/a.ts")])
    ∧ formatDocument sampleMap "s1" "file:///w/a.ts" (Except.error "boom")
      = (Except.ok none, sampleMap,
         [Event.request "s1" "textDocument/formatting" (some "file:///w/a.ts")])
    ∧ getDocumentSymbols sampleMap "s1" "file:///w/a.ts" (Except.error "boom")
      = (Except.ok none, sampleMap,
         [Event.request "s1" "textDocument/documentSymbol" (some "file:///w/a.ts")]) :=
  intelligence_failure_returns_null sampleMap "s1" "file:///w/a.ts" "boom" "y"
    0 4 true sampleServer rfl

theorem openDocument_reopen_resets_witness :
    (openDocument sampleMap "s1" "file:///w/a.ts" "new text" "plaintext").1
      = Except.ok ()
    ∧ docOf (openDocument sampleMap "s1" "file:///w/a.ts" "new text"
        "plaintext").2.1 "s1" "file:///w/a.ts"
      = some { uri := "file:///w/a.ts", languageId := "plaintext",
               version := 1, content := "new text" }
    ∧ (openDocument sampleMap "s1" "file:///w/a.ts" "new text" "plaintext").2.2
      = [Event.didOpen "s1" "file:///w/a.ts" "plaintext" 1 "new text"] :=
  openDocument_reopen_resets sampleMap "s1" "file:///w/a.ts" "new text"
    "plaintext" sampleServer
    ⟨"file:///w/a.ts", "typescript", 3, "let x = 1;"⟩ rfl rfl

theorem intelligence_no_open_check_witness :
    ((getCompletions sampleMap "s1" "file:///w/never.ts" 0 0
        (Except.ok "cs")).2.2
      = [Event.request "s1" "textDocument/completion" (some "file:///w/never.ts")]
     ∧ (getCompletions sampleMap "s1" "file:///w/never.ts" 0 0
        (Except.ok "cs")).1
      ≠ Except.error (Err.DocumentNotOpen "file:///w/never.ts"))
    ∧ ((getHover sampleMap "s1" "file:///w/never.ts" 0 0
        (Except.error "e2")).2.2
      = [Event.request "s1" "textDocument/hover" (some "file:///w/never.ts")]
     ∧ (getHover sampleMap "s1" "file:///w/never.ts" 0 0
        (Except.error "e2")).1
      ≠ Except.error (Err.DocumentNotOpen "file:///w/never.ts"))
    ∧ ((goToDefinition sampleMap "s1" "file:///w/never.ts" 0 0
        (Except.ok "d")).2.2
      = [Event.request "s1" "textDocument/definition" (some "file:///w/never.ts")]
     ∧ (goToDefinition sampleMap "s1" "file:///w/never.ts" 0 0
        (Except.ok "d")).1
      ≠ Except.error (Err.DocumentNotOpen "file:///w/never.ts"))
    ∧ ((findReferences sampleMap "s1" "file:///w/never.ts" 0 0 false
        (Except.error "e4")).2.2
      = [Event.request "s1" "textDocument/references" (some "file:///w/never.ts")]
     ∧ (findReferences sampleMap "s1" "file:///w/never.ts" 0 0 false
        (Except.error "e4")).1
      ≠ Except.error (Err.DocumentNotOpen "file:///w/never.ts"))
    ∧ ((renameSymbol sampleMap "s1" "file:///w/never.ts" 0 0 "z"
        (Except.ok "we")).2.2
      = [Event.request "s1" "textDocument/rename" (some "file:///w/never.ts")]
     ∧ (renameSymbol sampleMap "s1" "file:///w/never.ts" 0 0 "z"
        (Except.ok "we")).1
      ≠ Except.error (Err.DocumentNotOpen "file:///w/never.ts"))
    ∧ ((formatDocument sampleMap "s1" "file:///w/never.ts"
        (Except.error "e6")).2.2
      = [Event.request "s1" "textDocument/formatting" (some "file:///w/never.ts")]
     ∧ (formatDocument sampleMap "s1" "file:///w/never.ts"
        (Except.error "e6")).1
      ≠ Except.error (Err.DocumentNotOpen "file:///w/never.ts"))
    ∧ ((getDocumentSymbols sampleMap "s1" "file:///w/never.ts"
        (Except.ok "sy")).2.2
      = [Event.request "s1" "textDocument/documentSymbol" (some "file:///w/never.ts")]
     ∧ (getDocumentSymbols sampleMap "s1" "file:///w/never.ts"
        (Except.ok "sy")).1
      ≠ Except.error (Err.DocumentNotOpen "file:///w/never.ts")) :=
  intelligence_no_open_check sampleMap "s1" "file:///w/never.ts" "z" 0 0 false
    sampleServer (Except.ok "cs") (Except.error "e2") (Except.ok "d")
    (Except.error "e4") (Except.ok "we") (Except.error "e6") (Except.ok "sy")
    rfl rfl

end LspMcp
